import Mathlib

/-!
Shallow embedding of the JwelryAdmin server core: the IBJA rate fetcher
(scrapeIBJARates), the shop connection-string handling (connectToShopDB),
the catalog connector helpers (getShopProducts, createShopProduct,
updateShopProduct, getShopCategories) and the owner-scoped route handlers
from registerRoutes.  Numbers that the source manipulates as JS numbers are
modelled as exact rationals (the computations involved stay far from any
float rounding boundary), timestamps as integers (milliseconds), and JS
strings as Lean strings or lists of characters.
-/

namespace JwelryAdmin

/-! ## Rate fetcher (scrapeIBJARates and its cache) -/

/-- JS Math.round on the values this code produces: floor of x + 1/2. -/
def jsRound (q : ℚ) : ℤ := (q + 1/2).floor

/-- Digit grouping of Number.prototype.toLocaleString with the en-IN locale:
the last three digits form one group, the remaining digits are grouped in
pairs.  Works on the reversed digit list. -/
def groupPairsRev : List Char → List Char
  | [] => []
  | [a] => [a]
  | [a, b] => [a, b]
  | a :: b :: rest => a :: b :: ',' :: groupPairsRev rest

/-- Render a natural number the way toLocaleString with locale en-IN does. -/
def toLocaleStringEnIN (n : Nat) : String :=
  let ds := (Nat.repr n).toList
  if ds.length ≤ 3 then String.mk ds
  else
    let rev := ds.reverse
    String.mk ((rev.take 3 ++ (',' :: groupPairsRev (rev.drop 3))).reverse)

/-- The record scrapeIBJARates returns; lastUpdated is a millisecond clock
reading standing in for the Date the source stores. -/
structure IBJARates where
  gold_24k : String
  gold_22k : String
  silver : String
  lastUpdated : ℤ
deriving DecidableEq, Repr

/-- The module-level mutable cache of the rate fetcher, made explicit. -/
structure RateCache where
  cachedRates : Option IBJARates
  lastFetchTime : Option ℤ
deriving DecidableEq, Repr

def CACHE_DURATION : ℤ := 60 * 60 * 1000

/-- Outcome of the network fetch plus HTML scan: netError covers a thrown
fetch or a non-ok response; page g24 g22 gives the two per-gram prices the
cheerio scan extracted, each left at 0 when its marker was not found. -/
inductive FetchOutcome where
  | netError : FetchOutcome
  | page : Nat → Nat → FetchOutcome
deriving DecidableEq, Repr

/-- Numeric silver derivation of the source: silverPricePerGram =
gold24kPerGram * 0.0126 and silverPerKg = Math.round(silverPricePerGram *
1000). -/
def silverPerKgOf (gold24kPerGram : Nat) : ℤ :=
  jsRound ((gold24kPerGram : ℚ) * 0.0126 * 1000)

/-- Build the IBJARates record from freshly parsed per-gram prices, as in
the success branch of scrapeIBJARates. -/
def mkIBJARates (gold24kPerGram gold22kPerGram : Nat) (now : ℤ) : IBJARates :=
  let gold24kPer10g := gold24kPerGram * 10
  let gold22kPer10g := gold22kPerGram * 10
  let silverPerKg := silverPerKgOf gold24kPerGram
  { gold_24k := "₹ " ++ toLocaleStringEnIN gold24kPer10g
    gold_22k := "₹ " ++ toLocaleStringEnIN gold22kPer10g
    silver := "₹ " ++ toLocaleStringEnIN silverPerKg.toNat
    lastUpdated := now }

/-- The catch branch of scrapeIBJARates: return the stale cache when one
exists, otherwise the fixed sentinel; the cache is not written either way. -/
def recoverFromError : RateCache → ℤ → IBJARates × RateCache × Bool
  | ⟨some cached, lf⟩, _ => (cached, ⟨some cached, lf⟩, true)
  | ⟨none, lf⟩, now =>
      ({ gold_24k := "₹ N/A", gold_22k := "₹ N/A", silver := "₹ N/A",
         lastUpdated := now }, ⟨none, lf⟩, true)

/-- The body of scrapeIBJARates past the cache check: attempt the fetch,
fail to the catch branch when the network fails or either parsed price is
0, otherwise cache and return the fresh rates.  The Bool records that a
network fetch was performed. -/
def fetchAndCache (st : RateCache) (now : ℤ) :
    FetchOutcome → IBJARates × RateCache × Bool
  | FetchOutcome.netError => recoverFromError st now
  | FetchOutcome.page g24 g22 =>
      if g24 = 0 ∨ g22 = 0 then recoverFromError st now
      else
        let rates := mkIBJARates g24 g22 now
        (rates, { cachedRates := some rates, lastFetchTime := some now }, true)

/-- One call to scrapeIBJARates: state in, (returned rates, state out,
whether a network fetch happened).  The guard mirrors the cachedRates and
lastFetchTime truthiness check before the age comparison. -/
def scrapeIBJARates : RateCache → ℤ → FetchOutcome → IBJARates × RateCache × Bool
  | ⟨some cached, some t⟩, now, outcome =>
      if now - t < CACHE_DURATION then (cached, ⟨some cached, some t⟩, false)
      else fetchAndCache ⟨some cached, some t⟩ now outcome
  | ⟨some cached, none⟩, now, outcome => fetchAndCache ⟨some cached, none⟩ now outcome
  | ⟨none, lf⟩, now, outcome => fetchAndCache ⟨none, lf⟩ now outcome

/-- A fetch outcome that the source treats as a failure: a network error,
or a page on which either marker yielded no price. -/
def FetchFails : FetchOutcome → Prop
  | FetchOutcome.netError => True
  | FetchOutcome.page g24 g22 => g24 = 0 ∨ g22 = 0

instance : DecidablePred FetchFails := by
  intro o
  cases o with
  | netError => exact isTrue trivial
  | page g24 g22 => exact inferInstanceAs (Decidable (g24 = 0 ∨ g22 = 0))

/-! ## Connection-string handling (connectToShopDB) -/

/-- JS String.prototype.split with a one-character separator, on the
character-list model of JS strings. -/
def splitOnChar (sep : Char) : List Char → List (List Char)
  | [] => [[]]
  | c :: cs =>
      if c = sep then [] :: splitOnChar sep cs
      else
        match splitOnChar sep cs with
        | [] => [[c]]
        | group :: rest => (c :: group) :: rest

/-- ASCII portion of the whitespace class JS String.prototype.trim strips;
none of the strings this code handles carry the further Unicode spaces. -/
def isJsSpace (c : Char) : Bool :=
  c == ' ' || c == '\t' || c == '\n' || c == '\r' || c == '\x0b' || c == '\x0c'

/-- JS String.prototype.trim on the character-list model. -/
def jsTrim (s : List Char) : List Char :=
  ((s.dropWhile isJsSpace).reverse.dropWhile isJsSpace).reverse

/-- Database-name resolution of connectToShopDB: split the URI on the path
separator, take the last part, cut at the query marker; when the result is
empty or trims to empty, warn and fall back to the name test.  The Bool
records whether the warning was emitted. -/
def dbNameOfUri (mongoUri : List Char) : List Char × Bool :=
  let uriParts := splitOnChar '/' mongoUri
  let lastPart := uriParts.getLastD []
  let dbName := (splitOnChar '?' lastPart).headD []
  if dbName = [] ∨ jsTrim dbName = [] then ("test".toList, true) else (dbName, false)

/-! ## Catalog data model (productSchema, categorySchema and zod parsing)

JS numbers carried by these records (price, displayOrder) are modelled as
integers: the code only stores and compares them. -/

structure Category where
  _id : String
  name : String
  slug : String
  icon : Option String
  displayOrder : ℤ
deriving DecidableEq, Repr

/-- A product document as createShopProduct writes it into the products
collection: the four fields that insertion always sets are concrete, the
remaining optional fields may be absent. -/
structure StoredProduct where
  _id : String
  name : String
  description : String
  price : ℤ
  originalPrice : Option ℤ
  imageUrl : String
  category : String
  tags : List String
  featured : Bool
  inStock : Bool
  displayOrder : ℤ
  subImages : Option (List String)
  isNewArrival : Option Bool
  isNewTrend : Option Bool
  gender : Option String
  occasion : Option String
  purity : Option String
  stone : Option String
  weight : Option String
deriving DecidableEq, Repr

/-- The runtime shape of an insert payload: fields that insertProductSchema
declares optional or defaulted may be absent. -/
structure InsertProduct where
  name : String
  description : String
  price : ℤ
  originalPrice : Option ℤ
  imageUrl : String
  category : String
  tags : Option (List String)
  featured : Option Bool
  inStock : Option Bool
  displayOrder : Option ℤ
  subImages : Option (List String)
  isNewArrival : Option Bool
  isNewTrend : Option Bool
  gender : Option String
  occasion : Option String
  purity : Option String
  stone : Option String
  weight : Option String
deriving DecidableEq, Repr

/-- The runtime shape of an update payload: updateProductSchema is the
insert schema with every field optional, and absent fields stay absent. -/
structure UpdateProduct where
  name : Option String
  description : Option String
  price : Option ℤ
  originalPrice : Option ℤ
  imageUrl : Option String
  category : Option String
  tags : Option (List String)
  featured : Option Bool
  inStock : Option Bool
  displayOrder : Option ℤ
  subImages : Option (List String)
  isNewArrival : Option Bool
  isNewTrend : Option Bool
  gender : Option String
  occasion : Option String
  purity : Option String
  stone : Option String
  weight : Option String
deriving DecidableEq, Repr

/-- Parsing a request body with insertProductSchema: zod fills each field
declared with a default when the input leaves it out; plain optional
fields pass through. -/
def insertProductSchemaParse (p : InsertProduct) : InsertProduct :=
  { p with
    tags := some (p.tags.getD [])
    featured := some (p.featured.getD false)
    inStock := some (p.inStock.getD true)
    displayOrder := some (p.displayOrder.getD 0)
    subImages := some (p.subImages.getD [])
    isNewArrival := some (p.isNewArrival.getD false)
    isNewTrend := some (p.isNewTrend.getD false) }

/-! ## Catalog connector operations on the shop datastore -/

/-- JS or-else on a possibly absent boolean, as in product.featured || false. -/
def jsOrBool (v : Option Bool) (d : Bool) : Bool :=
  match v with
  | none => d
  | some b => if b then b else d

/-- JS or-else on a possibly absent number, as in product.displayOrder || 0:
the number 0 itself is falsy. -/
def jsOrInt (v : Option ℤ) (d : ℤ) : ℤ :=
  match v with
  | none => d
  | some n => if n = 0 then d else n

/-- JS or-else on a possibly absent array, as in product.tags || []: a
present array is always truthy. -/
def jsOrList (v : Option (List String)) (d : List String) : List String :=
  match v with
  | none => d
  | some l => l

/-- The strict check product.inStock !== false of createShopProduct. -/
def jsNotStrictFalse (v : Option Bool) : Bool :=
  match v with
  | some false => false
  | _ => true

/-- Ordering the driver applies for sort with displayOrder ascending. -/
def byDisplayOrder (a b : StoredProduct) : Prop := a.displayOrder ≤ b.displayOrder

instance : DecidableRel byDisplayOrder := fun a b =>
  inferInstanceAs (Decidable (a.displayOrder ≤ b.displayOrder))

def byDisplayOrderCat (a b : Category) : Prop := a.displayOrder ≤ b.displayOrder

instance : DecidableRel byDisplayOrderCat := fun a b =>
  inferInstanceAs (Decidable (a.displayOrder ≤ b.displayOrder))

/-- Data-level behaviour of getShopCategories: read the categories
collection sorted by displayOrder ascending, no filter. -/
def getShopCategories (store : List Category) : List Category :=
  List.insertionSort byDisplayOrderCat store

/-- Data-level behaviour of getShopProducts: the filter document is the
exact-match { category } when the parameter is truthy and differs from
all, otherwise empty; results are sorted by displayOrder ascending. -/
def getShopProducts (coll : List StoredProduct) (category : Option String) :
    List StoredProduct :=
  let filtered :=
    match category with
    | none => coll
    | some c => if c ≠ "" ∧ c ≠ "all" then coll.filter (fun p => p.category = c) else coll
  List.insertionSort byDisplayOrder filtered

/-- Data-level behaviour of getShopProductById: findOne on _id. -/
def getShopProductById (coll : List StoredProduct) (productId : String) :
    Option StoredProduct :=
  coll.find? (fun p => p._id == productId)

/-- The value createShopProduct hands back: the spread of the input payload
plus the insertedId. -/
structure CreatedProduct where
  _id : String
  data : InsertProduct
deriving DecidableEq, Repr

/-- Data-level behaviour of createShopProduct: insertOne the payload with
the four defaulting overrides; return the payload spread with the new id. -/
def createShopProduct (coll : List StoredProduct) (newId : String)
    (product : InsertProduct) : List StoredProduct × CreatedProduct :=
  let stored : StoredProduct :=
    { _id := newId
      name := product.name
      description := product.description
      price := product.price
      originalPrice := product.originalPrice
      imageUrl := product.imageUrl
      category := product.category
      tags := jsOrList product.tags []
      featured := jsOrBool product.featured false
      inStock := jsNotStrictFalse product.inStock
      displayOrder := jsOrInt product.displayOrder 0
      subImages := product.subImages
      isNewArrival := product.isNewArrival
      isNewTrend := product.isNewTrend
      gender := product.gender
      occasion := product.occasion
      purity := product.purity
      stone := product.stone
      weight := product.weight }
  (coll ++ [stored], { _id := newId, data := product })

/-- The product-creation operation as the POST products route performs it:
zod validation with its defaults, then createShopProduct. -/
def createProductValidated (coll : List StoredProduct) (newId : String)
    (body : InsertProduct) : List StoredProduct × CreatedProduct :=
  createShopProduct coll newId (insertProductSchemaParse body)

/-- The merge findOneAndUpdate applies with a partial set document: a
supplied field replaces the stored one, an absent field leaves it. -/
def applySet (p : StoredProduct) (u : UpdateProduct) : StoredProduct :=
  { _id := p._id
    name := u.name.getD p.name
    description := u.description.getD p.description
    price := u.price.getD p.price
    originalPrice := match u.originalPrice with | some v => some v | none => p.originalPrice
    imageUrl := u.imageUrl.getD p.imageUrl
    category := u.category.getD p.category
    tags := u.tags.getD p.tags
    featured := u.featured.getD p.featured
    inStock := u.inStock.getD p.inStock
    displayOrder := u.displayOrder.getD p.displayOrder
    subImages := match u.subImages with | some v => some v | none => p.subImages
    isNewArrival := match u.isNewArrival with | some v => some v | none => p.isNewArrival
    isNewTrend := match u.isNewTrend with | some v => some v | none => p.isNewTrend
    gender := match u.gender with | some v => some v | none => p.gender
    occasion := match u.occasion with | some v => some v | none => p.occasion
    purity := match u.purity with | some v => some v | none => p.purity
    stone := match u.stone with | some v => some v | none => p.stone
    weight := match u.weight with | some v => some v | none => p.weight }

/-- Data-level behaviour of updateShopProduct: findOneAndUpdate with
returnDocument after updates the first document matching _id and returns
it; with no match the collection is untouched and null comes back. -/
def updateShopProduct : List StoredProduct → String → UpdateProduct →
    List StoredProduct × Option StoredProduct
  | [], _, _ => ([], none)
  | p :: rest, pid, u =>
      if p._id = pid then (applySet p u :: rest, some (applySet p u))
      else
        let r := updateShopProduct rest pid u
        (p :: r.1, r.2)

/-- Data-level behaviour of deleteShopProduct: deleteOne on _id removes the
first match and reports whether deletedCount was positive. -/
def deleteShopProduct : List StoredProduct → String → List StoredProduct × Bool
  | [], _ => ([], false)
  | p :: rest, pid =>
      if p._id = pid then (rest, true)
      else
        let r := deleteShopProduct rest pid
        (p :: r.1, r.2)

/-! ## Connection lifecycle of the catalog helpers

Every helper in storage.ts begins with connectToShopDB, which constructs a
MongoClient and awaits client.connect(); no helper, and no code after them,
calls client.close() on that client.  The state below records which
connections a run has opened and which have been closed; close never being
called is visible as openConns only growing. -/

structure ConnState where
  nextConn : ℕ
  openConns : List ℕ
deriving DecidableEq, Repr

/-- connectToShopDB: open a fresh client connection and resolve the
database name from the URI; the client handle is never closed later. -/
def connectToShopDB (mongoUri : List Char) (st : ConnState) :
    (ℕ × List Char) × ConnState :=
  ((st.nextConn, (dbNameOfUri mongoUri).1),
   { nextConn := st.nextConn + 1, openConns := st.openConns ++ [st.nextConn] })

/-- getShopCategories with its connection lifecycle: connect, run the find
(which may fail), return; the connection stays open on both paths. -/
def getShopCategoriesConn (mongoUri : List Char) (store : List Category)
    (fetchOk : Bool) (st : ConnState) :
    Except Unit (List Category) × ConnState :=
  let r := connectToShopDB mongoUri st
  ((if fetchOk then Except.ok (getShopCategories store) else Except.error ()), r.2)

/-! ## Owner-scoped route handlers from registerRoutes -/

/-- A shop registration document of the directory store. -/
structure Shop where
  _id : String
  ownerId : String
  name : String
  imageUrl : String
  mongodbUri : String
  description : Option String
  address : Option String
  phone : Option String
  email : Option String
  website : Option String
  createdAt : ℤ
  updatedAt : ℤ
deriving DecidableEq, Repr

/-- MongoDBStorage.getShop: findOne on _id and ownerId together, so a shop
of another owner is indistinguishable from a missing one. -/
def getShop (shops : List Shop) (id ownerId : String) : Option Shop :=
  shops.find? (fun s => s._id == id && s.ownerId == ownerId)

/-- Transport-level result of a handler: an HTTP status with either a
payload or a message body. -/
inductive RouteReply (α : Type) where
  | success : ℕ → α → RouteReply α
  | failure : ℕ → String → RouteReply α
deriving DecidableEq, Repr

/-- GET categories handler; the Bool records whether a connection to
the external store was attempted. -/
def shopCategoriesRoute (shops : List Shop) (userId shopId : String)
    (fetchCategories : String → Except String (List Category)) :
    RouteReply (List Category) × Bool :=
  match getShop shops shopId userId with
  | none => (RouteReply.failure 404 "Shop not found", false)
  | some shop =>
      match fetchCategories shop.mongodbUri with
      | Except.ok cats => (RouteReply.success 200 cats, true)
      | Except.error _ => (RouteReply.failure 500 "Failed to fetch categories", true)

/-- GET products handler with the optional category query parameter. -/
def shopProductsRoute (shops : List Shop) (userId shopId : String)
    (category : Option String)
    (fetchProducts : String → Option String → Except String (List StoredProduct)) :
    RouteReply (List StoredProduct) × Bool :=
  match getShop shops shopId userId with
  | none => (RouteReply.failure 404 "Shop not found", false)
  | some shop =>
      match fetchProducts shop.mongodbUri category with
      | Except.ok prods => (RouteReply.success 200 prods, true)
      | Except.error _ => (RouteReply.failure 500 "Failed to fetch products", true)

/-- GET single-product handler. -/
def shopProductGetRoute (shops : List Shop) (userId shopId productId : String)
    (fetchById : String → String → Except String (Option StoredProduct)) :
    RouteReply StoredProduct × Bool :=
  match getShop shops shopId userId with
  | none => (RouteReply.failure 404 "Shop not found", false)
  | some shop =>
      match fetchById shop.mongodbUri productId with
      | Except.ok (some p) => (RouteReply.success 200 p, true)
      | Except.ok none => (RouteReply.failure 404 "Product not found", true)
      | Except.error _ => (RouteReply.failure 500 "Failed to fetch product", true)

/-- POST product handler: the body is validated only after the shop
resolves, and a validation throw lands in the same catch as a store
failure. -/
def shopProductCreateRoute (shops : List Shop) (userId shopId : String)
    (parsedBody : Except String InsertProduct)
    (create : String → InsertProduct → Except String CreatedProduct) :
    RouteReply CreatedProduct × Bool :=
  match getShop shops shopId userId with
  | none => (RouteReply.failure 404 "Shop not found", false)
  | some shop =>
      match parsedBody with
      | Except.error _ => (RouteReply.failure 400 "Invalid product data", false)
      | Except.ok data =>
          match create shop.mongodbUri data with
          | Except.ok prod => (RouteReply.success 201 prod, true)
          | Except.error _ => (RouteReply.failure 400 "Invalid product data", true)

/-- PUT product handler. -/
def shopProductUpdateRoute (shops : List Shop) (userId shopId productId : String)
    (parsedBody : Except String UpdateProduct)
    (update : String → String → UpdateProduct → Except String (Option StoredProduct)) :
    RouteReply StoredProduct × Bool :=
  match getShop shops shopId userId with
  | none => (RouteReply.failure 404 "Shop not found", false)
  | some shop =>
      match parsedBody with
      | Except.error _ => (RouteReply.failure 400 "Invalid product data", false)
      | Except.ok u =>
          match update shop.mongodbUri productId u with
          | Except.ok (some p) => (RouteReply.success 200 p, true)
          | Except.ok none => (RouteReply.failure 404 "Product not found", true)
          | Except.error _ => (RouteReply.failure 400 "Invalid product data", true)

/-- DELETE product handler. -/
def shopProductDeleteRoute (shops : List Shop) (userId shopId productId : String)
    (del : String → String → Except String Bool) :
    RouteReply String × Bool :=
  match getShop shops shopId userId with
  | none => (RouteReply.failure 404 "Shop not found", false)
  | some shop =>
      match del shop.mongodbUri productId with
      | Except.ok true => (RouteReply.success 200 "Product deleted successfully", true)
      | Except.ok false => (RouteReply.failure 404 "Product not found", true)
      | Except.error _ => (RouteReply.failure 500 "Failed to delete product", true)

/-! ## Helper lemmas -/

theorem fetchAndCache_fetches (st : RateCache) (now : ℤ) (o : FetchOutcome) :
    (fetchAndCache st now o).2.2 = true := by
  obtain ⟨cr, lf⟩ := st
  cases o with
  | netError => cases cr <;> rfl
  | page g24 g22 =>
      rw [fetchAndCache]
      split
      · cases cr <;> rfl
      · rfl

theorem fetchAndCache_success (st : RateCache) (now : ℤ) (g24 g22 : ℕ)
    (h24 : g24 ≠ 0) (h22 : g22 ≠ 0) :
    fetchAndCache st now (FetchOutcome.page g24 g22)
      = (mkIBJARates g24 g22 now,
         { cachedRates := some (mkIBJARates g24 g22 now), lastFetchTime := some now },
         true) := by
  rw [fetchAndCache]
  split
  · next h => exact absurd h (by simp [h24, h22])
  · rfl

theorem scrape_success_shape (st : RateCache) (now : ℤ) (g24 g22 : ℕ)
    (h24 : g24 ≠ 0) (h22 : g22 ≠ 0)
    (hfetch : (scrapeIBJARates st now (FetchOutcome.page g24 g22)).2.2 = true) :
    scrapeIBJARates st now (FetchOutcome.page g24 g22)
      = (mkIBJARates g24 g22 now,
         { cachedRates := some (mkIBJARates g24 g22 now), lastFetchTime := some now },
         true) := by
  obtain ⟨cr, lf⟩ := st
  cases cr with
  | none => exact fetchAndCache_success _ now g24 g22 h24 h22
  | some cached =>
      cases lf with
      | none => exact fetchAndCache_success _ now g24 g22 h24 h22
      | some t =>
          rw [scrapeIBJARates] at hfetch ⊢
          by_cases h : now - t < CACHE_DURATION
          · rw [if_pos h] at hfetch
            exact absurd hfetch (by simp)
          · rw [if_neg h]
            exact fetchAndCache_success _ now g24 g22 h24 h22

/-! ## Claims about the rate fetcher cache -/

/-- C3: a second call strictly within the cache interval after a call whose
fetch succeeded performs no network fetch and returns the first call's
rates with the cache state unchanged. -/
theorem cache_hit_no_fetch (st0 : RateCache) (now1 now2 : ℤ) (g24 g22 : ℕ)
    (o2 : FetchOutcome) (h24 : g24 ≠ 0) (h22 : g22 ≠ 0)
    (hfetch : (scrapeIBJARates st0 now1 (FetchOutcome.page g24 g22)).2.2 = true)
    (hlt : now2 - now1 < CACHE_DURATION) :
    scrapeIBJARates (scrapeIBJARates st0 now1 (FetchOutcome.page g24 g22)).2.1 now2 o2
      = ((scrapeIBJARates st0 now1 (FetchOutcome.page g24 g22)).1,
         (scrapeIBJARates st0 now1 (FetchOutcome.page g24 g22)).2.1,
         false) := by
  rw [scrape_success_shape st0 now1 g24 g22 h24 h22 hfetch]
  rw [scrapeIBJARates]
  exact if_pos hlt

theorem cache_hit_no_fetch_witness :
    scrapeIBJARates
        (scrapeIBJARates ⟨none, none⟩ 0 (FetchOutcome.page 7000 6500)).2.1
        600000 FetchOutcome.netError
      = ((scrapeIBJARates ⟨none, none⟩ 0 (FetchOutcome.page 7000 6500)).1,
         (scrapeIBJARates ⟨none, none⟩ 0 (FetchOutcome.page 7000 6500)).2.1,
         false) :=
  cache_hit_no_fetch ⟨none, none⟩ 0 600000 7000 6500 FetchOutcome.netError
    (by decide) (by decide) (by decide) (by decide)

/-- C4: when the cache is stale, the fetch is attempted and fails, and a
previously cached value exists, the call returns that cached value, leaves
the cache state unchanged, and returns normally rather than raising. -/
theorem stale_fallback (cached : IBJARates) (t now : ℤ) (o : FetchOutcome)
    (hstale : ¬(now - t < CACHE_DURATION)) (hfail : FetchFails o) :
    scrapeIBJARates ⟨some cached, some t⟩ now o
      = (cached, ⟨some cached, some t⟩, true) := by
  rw [scrapeIBJARates, if_neg hstale]
  cases o with
  | netError => rfl
  | page g24 g22 =>
      have hf : g24 = 0 ∨ g22 = 0 := hfail
      rw [fetchAndCache, if_pos hf]
      rfl

theorem stale_fallback_witness :
    scrapeIBJARates ⟨some (mkIBJARates 7000 6500 0), some 0⟩ 7200000 FetchOutcome.netError
      = (mkIBJARates 7000 6500 0, ⟨some (mkIBJARates 7000 6500 0), some 0⟩, true) :=
  stale_fallback (mkIBJARates 7000 6500 0) 0 7200000 FetchOutcome.netError
    (by decide) (by decide)

/-- C5: a failing fetch with nothing cached returns the record whose three
price fields all carry the sentinel, leaves the cache empty, and the next
call performs a fetch instead of serving the sentinel from cache. -/
theorem sentinel_not_cached (now now2 : ℤ) (o o2 : FetchOutcome)
    (hfail : FetchFails o) :
    (scrapeIBJARates ⟨none, none⟩ now o).1.gold_24k = "₹ N/A"
    ∧ (scrapeIBJARates ⟨none, none⟩ now o).1.gold_22k = "₹ N/A"
    ∧ (scrapeIBJARates ⟨none, none⟩ now o).1.silver = "₹ N/A"
    ∧ (scrapeIBJARates ⟨none, none⟩ now o).2.1 = ⟨none, none⟩
    ∧ (scrapeIBJARates (scrapeIBJARates ⟨none, none⟩ now o).2.1 now2 o2).2.2 = true := by
  have hrun : scrapeIBJARates ⟨none, none⟩ now o
      = ({ gold_24k := "₹ N/A", gold_22k := "₹ N/A", silver := "₹ N/A",
           lastUpdated := now }, ⟨none, none⟩, true) := by
    rw [scrapeIBJARates]
    cases o with
    | netError => rfl
    | page g24 g22 =>
        have hf : g24 = 0 ∨ g22 = 0 := hfail
        rw [fetchAndCache, if_pos hf]
        rfl
  rw [hrun]
  refine ⟨rfl, rfl, rfl, rfl, ?_⟩
  rw [scrapeIBJARates]
  exact fetchAndCache_fetches _ now2 o2

theorem sentinel_not_cached_witness :
    (scrapeIBJARates ⟨none, none⟩ 5 FetchOutcome.netError).1.gold_24k = "₹ N/A"
    ∧ (scrapeIBJARates ⟨none, none⟩ 5 FetchOutcome.netError).1.gold_22k = "₹ N/A"
    ∧ (scrapeIBJARates ⟨none, none⟩ 5 FetchOutcome.netError).1.silver = "₹ N/A"
    ∧ (scrapeIBJARates ⟨none, none⟩ 5 FetchOutcome.netError).2.1 = ⟨none, none⟩
    ∧ (scrapeIBJARates (scrapeIBJARates ⟨none, none⟩ 5 FetchOutcome.netError).2.1 6
          (FetchOutcome.page 7000 6500)).2.2 = true :=
  sentinel_not_cached 5 6 FetchOutcome.netError (FetchOutcome.page 7000 6500) (by decide)

/-! ## Claims about the silver derivation -/

theorem ratFloor_eq_intFloor (q : ℚ) : q.floor = ⌊q⌋ :=
  (Rat.floor_def' q).trans Rat.floor_def.symm

/-- Closed arithmetic form of the silver figure the code computes. -/
theorem silverPerKg_char (g : ℕ) : silverPerKgOf g = (126 * (g : ℤ) + 5) / 10 := by
  have h : (g : ℚ) * 0.0126 * 1000 + 1/2 = ((126 * (g : ℤ) + 5 : ℤ) : ℚ) / ((10 : ℕ) : ℚ) := by
    push_cast
    ring_nf
  rw [silverPerKgOf, jsRound, ratFloor_eq_intFloor, h, Rat.floor_intCast_div_natCast]
  norm_num

/-- The same figure as a natural-number division. -/
theorem silverPerKg_natDiv (g : ℕ) : silverPerKgOf g = (((126 * g + 5) / 10 : ℕ) : ℤ) := by
  rw [silverPerKg_char]
  omega

/-- Modelled from the claim wording: the per-gram gold price times the
ratio 0.0126, rounded to the nearest whole unit, then multiplied by 1000. -/
def specSilverPerKg (gold24kPerGram : ℕ) : ℤ :=
  jsRound ((gold24kPerGram : ℚ) * 0.0126) * 1000

/-- C1 counterexample: at a per-gram gold price of 100 the code derives
1260 while rounding before the multiplication by 1000, as the claim
states the formula, gives 1000. -/
theorem silver_round_order_cex :
    silverPerKgOf 100 = 1260 ∧ specSilverPerKg 100 = 1000
      ∧ silverPerKgOf 100 ≠ specSilverPerKg 100 := by
  have h1 : silverPerKgOf 100 = 1260 := by rw [silverPerKg_char]; decide
  have h2 : specSilverPerKg 100 = 1000 := by
    have h : ((100 : ℕ) : ℚ) * 0.0126 + 1/2 = ((88 : ℤ) : ℚ) / ((50 : ℕ) : ℚ) := by norm_num
    rw [specSilverPerKg, jsRound, ratFloor_eq_intFloor, h, Rat.floor_intCast_div_natCast]
    decide
  exact ⟨h1, h2, by rw [h1, h2]; decide⟩

/-- C1 (amended): for every successful fetch the silver headline value is
the per-gram 24K price times the ratio 0.0126 times 1000, rounded to the
nearest whole unit once at the end, which for a price g equals the natural
number (126 g + 5) / 10. -/
theorem silver_derivation_amended (st : RateCache) (now : ℤ) (g24 g22 : ℕ)
    (h24 : g24 ≠ 0) (h22 : g22 ≠ 0)
    (hfetch : (scrapeIBJARates st now (FetchOutcome.page g24 g22)).2.2 = true) :
    (scrapeIBJARates st now (FetchOutcome.page g24 g22)).1.silver
      = "₹ " ++ toLocaleStringEnIN ((126 * g24 + 5) / 10) := by
  rw [scrape_success_shape st now g24 g22 h24 h22 hfetch]
  show (mkIBJARates g24 g22 now).silver = _
  rw [mkIBJARates]
  rw [silverPerKg_natDiv]
  rw [Int.toNat_ofNat]

theorem silver_derivation_amended_witness :
    (scrapeIBJARates ⟨none, none⟩ 0 (FetchOutcome.page 7000 6500)).1.silver
      = "₹ " ++ toLocaleStringEnIN ((126 * 7000 + 5) / 10) :=
  silver_derivation_amended ⟨none, none⟩ 0 7000 6500 (by decide) (by decide) (by decide)

/-! ## Claims about connection-string parsing -/

theorem splitOnChar_not_mem (sep : Char) (l : List Char) (h : sep ∉ l) :
    splitOnChar sep l = [l] := by
  induction l with
  | nil => rfl
  | cons c cs ih =>
      have hc : ¬(c = sep) := by
        intro hc
        subst hc
        exact h (List.mem_cons_self c cs)
      rw [splitOnChar, if_neg hc, ih (fun hm => h (List.mem_cons_of_mem c hm))]

theorem splitOnChar_cons_self (sep : Char) (l : List Char) :
    splitOnChar sep (sep :: l) = [] :: splitOnChar sep l := by
  rw [splitOnChar, if_pos rfl]

theorem splitOnChar_append (sep : Char) (l1 l2 : List Char) (h : sep ∉ l1) :
    splitOnChar sep (l1 ++ sep :: l2) = l1 :: splitOnChar sep l2 := by
  induction l1 with
  | nil => exact splitOnChar_cons_self sep l2
  | cons c cs ih =>
      have hc : ¬(c = sep) := by
        intro hc
        subst hc
        exact h (List.mem_cons_self c cs)
      rw [List.cons_append, splitOnChar, if_neg hc,
        ih (fun hm => h (List.mem_cons_of_mem c hm))]

/-- Resolution computed on a URI of the documented shape. -/
theorem dbNameOfUri_eq (scheme host dbName query : List Char)
    (hs : '/' ∉ scheme) (hh : '/' ∉ host) (hd1 : '/' ∉ dbName) (hd2 : '?' ∉ dbName)
    (hq : '/' ∉ query) :
    dbNameOfUri (scheme ++ ':' :: '/' :: '/' :: host ++ '/' :: dbName ++ '?' :: query)
      = if dbName = [] ∨ jsTrim dbName = [] then ("test".toList, true)
        else (dbName, false) := by
  have h1 : '/' ∉ scheme ++ [':'] := by
    intro hm
    rcases List.mem_append.mp hm with hm | hm
    · exact hs hm
    · simp at hm
  have h2 : '/' ∉ dbName ++ '?' :: query := by
    intro hm
    rcases List.mem_append.mp hm with hm | hm
    · exact hd1 hm
    · rcases List.mem_cons.mp hm with hm | hm
      · exact absurd hm (by decide)
      · exact hq hm
  have e1 : scheme ++ ':' :: '/' :: '/' :: host ++ '/' :: dbName ++ '?' :: query
      = (scheme ++ [':']) ++ '/' :: ('/' :: (host ++ '/' :: (dbName ++ '?' :: query))) := by
    simp
  have hsplit : splitOnChar '/' (scheme ++ ':' :: '/' :: '/' :: host ++ '/' :: dbName ++ '?' :: query)
      = (scheme ++ [':']) :: [] :: host :: [dbName ++ '?' :: query] := by
    rw [e1, splitOnChar_append '/' _ _ h1, splitOnChar_cons_self,
      splitOnChar_append '/' _ _ hh, splitOnChar_not_mem '/' _ h2]
  have hlast : ((scheme ++ [':']) :: [] :: host :: [dbName ++ '?' :: query]).getLastD []
      = dbName ++ '?' :: query := rfl
  have hq2 : splitOnChar '?' (dbName ++ '?' :: query) = dbName :: splitOnChar '?' query :=
    splitOnChar_append '?' _ _ hd2
  rw [dbNameOfUri, hsplit, hlast, hq2]
  simp only [List.headD_cons]

/-- C2 (amended): on a connection string scheme://host/dbName?query the
resolved database name is the trailing segment dbName exactly whenever
that segment does not trim to the empty string; when the segment is empty
or all whitespace the resolved name is the fallback constant test and the
diagnostic warning is emitted. -/
theorem dbName_resolution (scheme host dbName query : List Char)
    (hs : '/' ∉ scheme) (hh : '/' ∉ host) (hd1 : '/' ∉ dbName) (hd2 : '?' ∉ dbName)
    (hq : '/' ∉ query) :
    (jsTrim dbName ≠ [] →
      dbNameOfUri (scheme ++ ':' :: '/' :: '/' :: host ++ '/' :: dbName ++ '?' :: query)
        = (dbName, false))
    ∧ (jsTrim dbName = [] →
      dbNameOfUri (scheme ++ ':' :: '/' :: '/' :: host ++ '/' :: dbName ++ '?' :: query)
        = ("test".toList, true)) := by
  rw [dbNameOfUri_eq scheme host dbName query hs hh hd1 hd2 hq]
  constructor
  · intro ht
    rw [if_neg]
    rintro (he | he)
    · exact ht (by rw [he]; rfl)
    · exact ht he
  · intro ht
    exact if_pos (Or.inr ht)

theorem dbName_resolution_witness :
    dbNameOfUri ("mongodb".toList ++ ':' :: '/' :: '/' :: "cluster0.mongodb.net".toList
        ++ '/' :: "shopdb".toList ++ '?' :: "retryWrites=true".toList)
      = ("shopdb".toList, false) :=
  (dbName_resolution "mongodb".toList "cluster0.mongodb.net".toList "shopdb".toList
      "retryWrites=true".toList (by decide) (by decide) (by decide) (by decide)
      (by decide)).1 (by decide)

/-- C2 counterexample: the URI mongodb://host/ ?x has the documented shape
with the nonempty trailing segment consisting of one space, yet the code
resolves the fallback name test with a warning instead of that segment. -/
theorem dbName_whitespace_cex :
    "mongodb://host/ ?x".toList
      = "mongodb".toList ++ ':' :: '/' :: '/' :: "host".toList
          ++ '/' :: [' '] ++ '?' :: "x".toList
    ∧ ([' '] : List Char) ≠ []
    ∧ dbNameOfUri "mongodb://host/ ?x".toList = ("test".toList, true)
    ∧ dbNameOfUri "mongodb://host/ ?x".toList ≠ (([' '] : List Char), false) := by
  refine ⟨by decide, by decide, by decide, by decide⟩

/-! ## Claims about ownership scoping of the catalog routes -/

theorem getShop_eq_none (shops : List Shop) (id ownerId : String)
    (h : ∀ s ∈ shops, s._id = id → s.ownerId ≠ ownerId) :
    getShop shops id ownerId = none := by
  induction shops with
  | nil => rfl
  | cons s rest ih =>
      have hs : (s._id == id && s.ownerId == ownerId) = false := by
        by_cases h1 : s._id = id
        · have h2 := h s (List.mem_cons_self s rest) h1
          simp [h1, h2]
        · simp [h1]
      rw [getShop, List.find?_cons, hs]
      exact ih (fun s2 hs2 => h s2 (List.mem_cons_of_mem _ hs2))

/-- C6: when no shop with the requested id belongs to the caller, every
catalog handler resolves no shop, answers 404 not-found, and attempts no
connection to any external store. -/
theorem ownership_check_precedes_io
    (shops : List Shop) (userId shopId productId : String) (category : Option String)
    (fetchCategories : String → Except String (List Category))
    (fetchProducts : String → Option String → Except String (List StoredProduct))
    (fetchById : String → String → Except String (Option StoredProduct))
    (parsedBodyC : Except String InsertProduct)
    (parsedBodyU : Except String UpdateProduct)
    (create : String → InsertProduct → Except String CreatedProduct)
    (update : String → String → UpdateProduct → Except String (Option StoredProduct))
    (del : String → String → Except String Bool)
    (hOwn : ∀ s ∈ shops, s._id = shopId → s.ownerId ≠ userId) :
    getShop shops shopId userId = none
    ∧ shopCategoriesRoute shops userId shopId fetchCategories
        = (RouteReply.failure 404 "Shop not found", false)
    ∧ shopProductsRoute shops userId shopId category fetchProducts
        = (RouteReply.failure 404 "Shop not found", false)
    ∧ shopProductGetRoute shops userId shopId productId fetchById
        = (RouteReply.failure 404 "Shop not found", false)
    ∧ shopProductCreateRoute shops userId shopId parsedBodyC create
        = (RouteReply.failure 404 "Shop not found", false)
    ∧ shopProductUpdateRoute shops userId shopId productId parsedBodyU update
        = (RouteReply.failure 404 "Shop not found", false)
    ∧ shopProductDeleteRoute shops userId shopId productId del
        = (RouteReply.failure 404 "Shop not found", false) := by
  have hnone := getShop_eq_none shops shopId userId hOwn
  refine ⟨hnone, ?_, ?_, ?_, ?_, ?_, ?_⟩ <;>
    simp [shopCategoriesRoute, shopProductsRoute, shopProductGetRoute,
      shopProductCreateRoute, shopProductUpdateRoute, shopProductDeleteRoute, hnone]

/-- A shop registered by a different administrator, used in witnesses. -/
def shopOfAdmin2 : Shop :=
  { _id := "shop1", ownerId := "admin2", name := "B", imageUrl := "b.png",
    mongodbUri := "mongodb://host/db", description := none, address := none,
    phone := none, email := none, website := none, createdAt := 0, updatedAt := 0 }

theorem ownership_check_precedes_io_witness :
    getShop [shopOfAdmin2] "shop1" "admin1" = none
    ∧ shopCategoriesRoute [shopOfAdmin2] "admin1" "shop1" (fun _ => Except.error "down")
        = (RouteReply.failure 404 "Shop not found", false)
    ∧ shopProductsRoute [shopOfAdmin2] "admin1" "shop1" none (fun _ _ => Except.error "down")
        = (RouteReply.failure 404 "Shop not found", false)
    ∧ shopProductGetRoute [shopOfAdmin2] "admin1" "shop1" "p1" (fun _ _ => Except.error "down")
        = (RouteReply.failure 404 "Shop not found", false)
    ∧ shopProductCreateRoute [shopOfAdmin2] "admin1" "shop1" (Except.error "bad")
          (fun _ _ => Except.error "down")
        = (RouteReply.failure 404 "Shop not found", false)
    ∧ shopProductUpdateRoute [shopOfAdmin2] "admin1" "shop1" "p1" (Except.error "bad")
          (fun _ _ _ => Except.error "down")
        = (RouteReply.failure 404 "Shop not found", false)
    ∧ shopProductDeleteRoute [shopOfAdmin2] "admin1" "shop1" "p1" (fun _ _ => Except.error "down")
        = (RouteReply.failure 404 "Shop not found", false) :=
  ownership_check_precedes_io [shopOfAdmin2] "admin1" "shop1" "p1" none
    (fun _ => Except.error "down") (fun _ _ => Except.error "down")
    (fun _ _ => Except.error "down") (Except.error "bad") (Except.error "bad")
    (fun _ _ => Except.error "down") (fun _ _ _ => Except.error "down")
    (fun _ _ => Except.error "down") (by decide)

/-! ## Claims about product listing -/

instance : IsTotal StoredProduct byDisplayOrder :=
  ⟨fun a b => le_total a.displayOrder b.displayOrder⟩

instance : IsTrans StoredProduct byDisplayOrder :=
  ⟨fun _ _ _ hab hbc => le_trans hab hbc⟩

/-- Modelled from the claim wording: a filter omitted or equal to the
sentinel all applies no filter; any other value applies an exact category
match; results sorted by display order ascending. -/
def specListProducts (coll : List StoredProduct) (category : Option String) :
    List StoredProduct :=
  match category with
  | none => List.insertionSort byDisplayOrder coll
  | some c =>
      if c = "all" then List.insertionSort byDisplayOrder coll
      else List.insertionSort byDisplayOrder (coll.filter (fun p => p.category = c))

/-- Sample products for witnesses. -/
def pRing : StoredProduct :=
  { _id := "p1", name := "Ring", description := "gold ring", price := 999,
    originalPrice := none, imageUrl := "r.png", category := "rings", tags := [],
    featured := false, inStock := true, displayOrder := 1, subImages := none,
    isNewArrival := none, isNewTrend := none, gender := none, occasion := none,
    purity := none, stone := none, weight := none }

def pChain : StoredProduct :=
  { _id := "p2", name := "Chain", description := "gold chain", price := 1999,
    originalPrice := some 2400, imageUrl := "c.png", category := "necklaces",
    tags := ["gold"], featured := true, inStock := true, displayOrder := 0,
    subImages := none, isNewArrival := none, isNewTrend := none, gender := none,
    occasion := none, purity := none, stone := none, weight := none }

/-- C7 counterexample: an empty-string category filter is falsy in the
truthiness guard, so the code returns the unfiltered collection, while the
claim as stated requires an exact match on the empty string. -/
theorem empty_filter_cex :
    getShopProducts [pRing] (some "") = [pRing]
    ∧ specListProducts [pRing] (some "") = []
    ∧ getShopProducts [pRing] (some "") ≠ specListProducts [pRing] (some "") := by
  refine ⟨by decide, by decide, by decide⟩

/-- C7 (amended): with the filter omitted, empty, or the sentinel all, the
listing is a permutation of the whole collection; with any other value it
holds exactly the products whose category equals the filter; in all cases
it is sorted by display order ascending. -/
theorem listProducts_filter_sorted (coll : List StoredProduct) (category : Option String) :
    ((category = none ∨ category = some "" ∨ category = some "all") →
      (getShopProducts coll category).Perm coll)
    ∧ (∀ c, category = some c → c ≠ "" → c ≠ "all" →
        ∀ p, p ∈ getShopProducts coll category ↔ p ∈ coll ∧ p.category = c)
    ∧ (getShopProducts coll category).Sorted byDisplayOrder := by
  refine ⟨?_, ?_, ?_⟩
  · rintro (h | h | h) <;> subst h
    · exact List.perm_insertionSort _ _
    · show (List.insertionSort byDisplayOrder
        (if ("" : String) ≠ "" ∧ ("" : String) ≠ "all" then _ else coll)).Perm coll
      rw [if_neg (by simp)]
      exact List.perm_insertionSort _ _
    · show (List.insertionSort byDisplayOrder
        (if ("all" : String) ≠ "" ∧ ("all" : String) ≠ "all" then _ else coll)).Perm coll
      rw [if_neg (by simp)]
      exact List.perm_insertionSort _ _
  · intro c hc hne hnall p
    subst hc
    show p ∈ List.insertionSort byDisplayOrder
        (if c ≠ "" ∧ c ≠ "all" then coll.filter (fun q => q.category = c) else coll) ↔ _
    rw [if_pos ⟨hne, hnall⟩]
    rw [(List.perm_insertionSort byDisplayOrder _).mem_iff]
    simp [List.mem_filter]
  · exact List.sorted_insertionSort byDisplayOrder _

theorem listProducts_filter_sorted_witness :
    pRing ∈ getShopProducts [pRing, pChain] (some "rings")
      ↔ pRing ∈ [pRing, pChain] ∧ pRing.category = "rings" :=
  (listProducts_filter_sorted [pRing, pChain] (some "rings")).2.1 "rings" rfl
    (by decide) (by decide) pRing

/-! ## Claims about product creation -/

theorem jsOrBool_some_getD (v : Option Bool) :
    jsOrBool (some (v.getD false)) false = v.getD false := by
  cases v with
  | none => rfl
  | some b => cases b <;> rfl

theorem jsNotStrictFalse_some_getD (v : Option Bool) :
    jsNotStrictFalse (some (v.getD true)) = v.getD true := by
  cases v with
  | none => rfl
  | some b => cases b <;> rfl

theorem jsOrInt_some_getD (v : Option ℤ) :
    jsOrInt (some (v.getD 0)) 0 = v.getD 0 := by
  cases v with
  | none => rfl
  | some n =>
      show (if n = 0 then 0 else n) = n
      split
      · omega
      · rfl

/-- C8: a product-creation call returns the payload with the id the store
assigned; fields the payload left unset reach both the returned value and
the stored document with the documented defaults (tags empty, featured
false, inStock true, displayOrder 0). -/
theorem createProduct_defaults (coll : List StoredProduct) (newId : String)
    (body : InsertProduct) :
    (createProductValidated coll newId body).2._id = newId
    ∧ (body.tags = none →
        (createProductValidated coll newId body).2.data.tags = some [])
    ∧ (body.featured = none →
        (createProductValidated coll newId body).2.data.featured = some false)
    ∧ (body.inStock = none →
        (createProductValidated coll newId body).2.data.inStock = some true)
    ∧ (body.displayOrder = none →
        (createProductValidated coll newId body).2.data.displayOrder = some 0)
    ∧ (createProductValidated coll newId body).1
        = coll ++ [{ _id := newId, name := body.name, description := body.description,
                     price := body.price, originalPrice := body.originalPrice,
                     imageUrl := body.imageUrl, category := body.category,
                     tags := body.tags.getD [], featured := body.featured.getD false,
                     inStock := body.inStock.getD true,
                     displayOrder := body.displayOrder.getD 0,
                     subImages := some (body.subImages.getD []),
                     isNewArrival := some (body.isNewArrival.getD false),
                     isNewTrend := some (body.isNewTrend.getD false),
                     gender := body.gender, occasion := body.occasion,
                     purity := body.purity, stone := body.stone,
                     weight := body.weight }] := by
  refine ⟨rfl, ?_, ?_, ?_, ?_, ?_⟩
  · intro h
    simp [createProductValidated, createShopProduct, insertProductSchemaParse, h]
  · intro h
    simp [createProductValidated, createShopProduct, insertProductSchemaParse, h]
  · intro h
    simp [createProductValidated, createShopProduct, insertProductSchemaParse, h]
  · intro h
    simp [createProductValidated, createShopProduct, insertProductSchemaParse, h]
  · simp only [createProductValidated, createShopProduct, insertProductSchemaParse]
    simp [jsOrList, jsOrBool_some_getD, jsNotStrictFalse_some_getD, jsOrInt_some_getD]

/-- An insert payload leaving every optional field unset. -/
def insertBodyBare : InsertProduct :=
  { name := "Ring", description := "gold ring", price := 999, originalPrice := none,
    imageUrl := "r.png", category := "rings", tags := none, featured := none,
    inStock := none, displayOrder := none, subImages := none, isNewArrival := none,
    isNewTrend := none, gender := none, occasion := none, purity := none,
    stone := none, weight := none }

theorem createProduct_defaults_witness :
    (createProductValidated [] "new1" insertBodyBare).2._id = "new1"
    ∧ (createProductValidated [] "new1" insertBodyBare).2.data.tags = some []
    ∧ (createProductValidated [] "new1" insertBodyBare).2.data.featured = some false
    ∧ (createProductValidated [] "new1" insertBodyBare).2.data.inStock = some true
    ∧ (createProductValidated [] "new1" insertBodyBare).2.data.displayOrder = some 0 :=
  ⟨(createProduct_defaults [] "new1" insertBodyBare).1,
   (createProduct_defaults [] "new1" insertBodyBare).2.1 rfl,
   (createProduct_defaults [] "new1" insertBodyBare).2.2.1 rfl,
   (createProduct_defaults [] "new1" insertBodyBare).2.2.2.1 rfl,
   (createProduct_defaults [] "new1" insertBodyBare).2.2.2.2.1 rfl⟩

/-! ## Claims about product update -/

theorem updateShopProduct_not_found (coll : List StoredProduct) (pid : String)
    (u : UpdateProduct) (h : ∀ q ∈ coll, q._id ≠ pid) :
    updateShopProduct coll pid u = (coll, none) := by
  induction coll with
  | nil => rfl
  | cons q rest ih =>
      rw [updateShopProduct, if_neg (h q (List.mem_cons_self q rest))]
      rw [ih (fun r hr => h r (List.mem_cons_of_mem q hr))]

theorem updateShopProduct_found (pre post : List StoredProduct) (p : StoredProduct)
    (u : UpdateProduct) (h : ∀ q ∈ pre, q._id ≠ p._id) :
    updateShopProduct (pre ++ p :: post) p._id u
      = (pre ++ applySet p u :: post, some (applySet p u)) := by
  induction pre with
  | nil => simp [updateShopProduct]
  | cons q rest ih =>
      rw [List.cons_append, updateShopProduct,
        if_neg (h q (List.mem_cons_self q rest)),
        ih (fun r hr => h r (List.mem_cons_of_mem q hr))]
      rfl

/-- C9: an update call merges only the supplied fields into the first
product matching the id, leaves every unsupplied field and every other
product unchanged, and with no matching id changes nothing and reports
not-found. -/
theorem updateProduct_partial_merge
    (coll pre post : List StoredProduct) (p : StoredProduct) (u : UpdateProduct)
    (pid : String) :
    ((∀ q ∈ coll, q._id ≠ pid) → updateShopProduct coll pid u = (coll, none))
    ∧ ((∀ q ∈ pre, q._id ≠ p._id) →
        updateShopProduct (pre ++ p :: post) p._id u
          = (pre ++ applySet p u :: post, some (applySet p u)))
    ∧ (applySet p u)._id = p._id
    ∧ (u.name = none → (applySet p u).name = p.name)
    ∧ (∀ v, u.name = some v → (applySet p u).name = v)
    ∧ (u.description = none → (applySet p u).description = p.description)
    ∧ (∀ v, u.description = some v → (applySet p u).description = v)
    ∧ (u.price = none → (applySet p u).price = p.price)
    ∧ (∀ v, u.price = some v → (applySet p u).price = v)
    ∧ (u.originalPrice = none → (applySet p u).originalPrice = p.originalPrice)
    ∧ (∀ v, u.originalPrice = some v → (applySet p u).originalPrice = some v)
    ∧ (u.imageUrl = none → (applySet p u).imageUrl = p.imageUrl)
    ∧ (∀ v, u.imageUrl = some v → (applySet p u).imageUrl = v)
    ∧ (u.category = none → (applySet p u).category = p.category)
    ∧ (∀ v, u.category = some v → (applySet p u).category = v)
    ∧ (u.tags = none → (applySet p u).tags = p.tags)
    ∧ (∀ v, u.tags = some v → (applySet p u).tags = v)
    ∧ (u.featured = none → (applySet p u).featured = p.featured)
    ∧ (∀ v, u.featured = some v → (applySet p u).featured = v)
    ∧ (u.inStock = none → (applySet p u).inStock = p.inStock)
    ∧ (∀ v, u.inStock = some v → (applySet p u).inStock = v)
    ∧ (u.displayOrder = none → (applySet p u).displayOrder = p.displayOrder)
    ∧ (∀ v, u.displayOrder = some v → (applySet p u).displayOrder = v)
    ∧ (u.subImages = none → (applySet p u).subImages = p.subImages)
    ∧ (∀ v, u.subImages = some v → (applySet p u).subImages = some v)
    ∧ (u.isNewArrival = none → (applySet p u).isNewArrival = p.isNewArrival)
    ∧ (∀ v, u.isNewArrival = some v → (applySet p u).isNewArrival = some v)
    ∧ (u.isNewTrend = none → (applySet p u).isNewTrend = p.isNewTrend)
    ∧ (∀ v, u.isNewTrend = some v → (applySet p u).isNewTrend = some v)
    ∧ (u.gender = none → (applySet p u).gender = p.gender)
    ∧ (∀ v, u.gender = some v → (applySet p u).gender = some v)
    ∧ (u.occasion = none → (applySet p u).occasion = p.occasion)
    ∧ (∀ v, u.occasion = some v → (applySet p u).occasion = some v)
    ∧ (u.purity = none → (applySet p u).purity = p.purity)
    ∧ (∀ v, u.purity = some v → (applySet p u).purity = some v)
    ∧ (u.stone = none → (applySet p u).stone = p.stone)
    ∧ (∀ v, u.stone = some v → (applySet p u).stone = some v)
    ∧ (u.weight = none → (applySet p u).weight = p.weight)
    ∧ (∀ v, u.weight = some v → (applySet p u).weight = some v) := by
  refine ⟨updateShopProduct_not_found coll pid u, updateShopProduct_found pre post p u,
    rfl, ?_, ?_, ?_, ?_, ?_, ?_, ?_, ?_, ?_, ?_, ?_, ?_, ?_, ?_, ?_, ?_, ?_, ?_,
    ?_, ?_, ?_, ?_, ?_, ?_, ?_, ?_, ?_, ?_, ?_, ?_, ?_, ?_, ?_, ?_, ?_, ?_⟩ <;>
    first
      | (intro h; simp [applySet, h])
      | (intro v h; simp [applySet, h])

/-- An update payload supplying only the name field. -/
def patchNameOnly : UpdateProduct :=
  { name := some "Named", description := none, price := none, originalPrice := none,
    imageUrl := none, category := none, tags := none, featured := none,
    inStock := none, displayOrder := none, subImages := none, isNewArrival := none,
    isNewTrend := none, gender := none, occasion := none, purity := none,
    stone := none, weight := none }

theorem updateProduct_partial_merge_witness :
    updateShopProduct [pRing] "nope" patchNameOnly = ([pRing], none)
    ∧ updateShopProduct ([pChain] ++ pRing :: []) pRing._id patchNameOnly
        = ([pChain] ++ applySet pRing patchNameOnly :: [], some (applySet pRing patchNameOnly))
    ∧ (applySet pRing patchNameOnly).name = "Named"
    ∧ (applySet pRing patchNameOnly).price = pRing.price := by
  obtain ⟨h1, h2, hid, hn1, hn2, hd1, hd2, hp1, rest⟩ :=
    updateProduct_partial_merge [pRing] [pChain] [] pRing patchNameOnly "nope"
  exact ⟨h1 (by decide), h2 (by decide), hn2 "Named" rfl, hp1 rfl⟩

/-! ## Claim about connection release -/

/-- C10: after any run of the categories helper, successful or failed, the
connection it opened is still in the open set: no catalog operation closes
the client it created, so the connection outlives the operation. -/
theorem connection_never_released (mongoUri : List Char) (store : List Category)
    (fetchOk : Bool) (st : ConnState) :
    (getShopCategoriesConn mongoUri store fetchOk st).2.openConns
      = st.openConns ++ [st.nextConn]
    ∧ st.nextConn ∈ (getShopCategoriesConn mongoUri store fetchOk st).2.openConns := by
  refine ⟨rfl, ?_⟩
  show st.nextConn ∈ st.openConns ++ [st.nextConn]
  simp

end JwelryAdmin
